import Mathlib

/-!
Verification of the custom scalar integration layer exercised by
`src/integration_tests/juniper_tests/src/codegen/derive_scalar.rs`.

The engine core (scalar value model, binding derivation, introspection
registry, query execution) is not part of the sources under `src/`; those
parts are modelled from the spec (sections 2-4 and 6-7), as marked on each
definition.  The concrete per-test data (the `Counter`, `CustomCounter`,
`Increment` and `CustomDateTime` types, their custom operations and the
expected query results) is embedded from the source file.
-/

set_option autoImplicit false

/-- Modelled from the spec (section 3, ScalarValue): the default wire-value
union with variants Int (i32-range integer), Float, String, Boolean.  The
floating-point payload is kept as its textual form; no claim inspects it. -/
inductive DefaultScalarValue where
  | int (i : Int)
  | float (text : String)
  | str (s : String)
  | boolean (b : Bool)
deriving DecidableEq, Repr

/-- Modelled from the spec (section 2, Scalar Value Model): a host-defined
richer value model adding a 64-bit integer kind, standing for the
`MyScalarValue` union used by the `custom_scalar` module of the source. -/
inductive MyScalarValue where
  | int (i : Int)
  | long (l : Int)
  | float (text : String)
  | str (s : String)
  | boolean (b : Bool)
deriving DecidableEq, Repr

/-- Modelled from the spec (sections 2 and 4.1): the minimum capability set a
pluggable scalar-value implementation must provide - construct a scalar from
a primitive, pattern-match a primitive back out, display as text - together
with the round-trip laws that make the constructors and matchers reciprocal. -/
structure ScalarValueImpl where
  carrier : Type
  fromInt : Int → carrier
  fromString : String → carrier
  fromBool : Bool → carrier
  asInt : carrier → Option Int
  asString : carrier → Option String
  asBool : carrier → Option Bool
  display : carrier → String
  asInt_fromInt : ∀ i, asInt (fromInt i) = some i
  asString_fromString : ∀ s, asString (fromString s) = some s
  asBool_fromBool : ∀ b, asBool (fromBool b) = some b

/-- Modelled from the spec (section 3, InputValue): the input-value tree over
a scalar carrier, with structural nodes Null, List, Object, Variable, Enum. -/
inductive InputValue (C : Type) where
  | null
  | scalar (s : C)
  | enum (name : String)
  | var (name : String)
  | list (elems : List (InputValue C))
  | object (fields : List (String × InputValue C))

/-- Modelled from the spec (section 3, OutputValue): the output-value tree
over a scalar carrier, with structural nodes Null, List, Object. -/
inductive Value (C : Type) where
  | null
  | scalar (s : C)
  | list (elems : List (Value C))
  | object (fields : List (String × Value C))

/-- Modelled from the spec (section 3, ScalarToken): a lexical token kind
carrying raw slice text, with no semantic interpretation yet. -/
inductive ScalarToken where
  | intTok (text : String)
  | floatTok (text : String)
  | strTok (text : String)
deriving DecidableEq, Repr

/-- The `DefaultScalarValue` instantiation of the capability set. -/
def defaultScalar : ScalarValueImpl where
  carrier := DefaultScalarValue
  fromInt := .int
  fromString := .str
  fromBool := .boolean
  asInt := fun v => match v with | .int i => some i | _ => none
  asString := fun v => match v with | .str s => some s | _ => none
  asBool := fun v => match v with | .boolean b => some b | _ => none
  display := fun v =>
    match v with
    | .int i => toString i
    | .float t => t
    | .str s => "\"" ++ s ++ "\""
    | .boolean b => toString b
  asInt_fromInt := fun _ => rfl
  asString_fromString := fun _ => rfl
  asBool_fromBool := fun _ => rfl

/-- The `MyScalarValue` instantiation of the capability set. -/
def myScalar : ScalarValueImpl where
  carrier := MyScalarValue
  fromInt := .int
  fromString := .str
  fromBool := .boolean
  asInt := fun v => match v with | .int i => some i | _ => none
  asString := fun v => match v with | .str s => some s | _ => none
  asBool := fun v => match v with | .boolean b => some b | _ => none
  display := fun v =>
    match v with
    | .int i => toString i
    | .long l => toString l
    | .float t => t
    | .str s => "\"" ++ s ++ "\""
    | .boolean b => toString b
  asInt_fromInt := fun _ => rfl
  asString_fromString := fun _ => rfl
  asBool_fromBool := fun _ => rfl

/-- Extract the integer payload of a scalar input-value, `None` on any other
node.  Modelled from the spec (section 4.1, pattern-match out a primitive). -/
def InputValue.asIntValue (SV : ScalarValueImpl) :
    InputValue SV.carrier → Option Int
  | .scalar s => SV.asInt s
  | _ => none

/-- Extract the string payload of a scalar input-value, `None` on any other
node.  Modelled from the spec (section 4.1, pattern-match out a primitive). -/
def InputValue.asStringValue (SV : ScalarValueImpl) :
    InputValue SV.carrier → Option String
  | .scalar s => SV.asString s
  | _ => none

mutual

/-- Modelled from the spec (section 4.1, display as text): textual rendering
of an input-value tree, used inside decode error messages. -/
def InputValue.display (SV : ScalarValueImpl) : InputValue SV.carrier → String
  | .null => "null"
  | .scalar s => SV.display s
  | .enum n => n
  | .var n => "$" ++ n
  | .list es => "[" ++ String.intercalate ", " (InputValue.displayList SV es) ++ "]"
  | .object fs =>
      "\x7b" ++ String.intercalate ", " (InputValue.displayFields SV fs) ++ "\x7d"

/-- Renders each element of a list of input-values. -/
def InputValue.displayList (SV : ScalarValueImpl) :
    List (InputValue SV.carrier) → List String
  | [] => []
  | v :: vs => InputValue.display SV v :: InputValue.displayList SV vs

/-- Renders each field of an input-value object. -/
def InputValue.displayFields (SV : ScalarValueImpl) :
    List (String × InputValue SV.carrier) → List String
  | [] => []
  | (n, v) :: fs => (n ++ ": " ++ InputValue.display SV v) :: InputValue.displayFields SV fs

end

mutual

/-- Reinterpret an output-value tree as an input-value tree (the shape an
encoder's result takes when fed back to the paired decoder; used to state the
round-trip law of spec section 8). -/
def Value.toInputValue {C : Type} : Value C → InputValue C
  | .null => .null
  | .scalar s => .scalar s
  | .list es => .list (Value.toInputValueList es)
  | .object fs => .object (Value.toInputValueFields fs)

/-- Reinterprets each element of a list of output-values. -/
def Value.toInputValueList {C : Type} : List (Value C) → List (InputValue C)
  | [] => []
  | v :: vs => Value.toInputValue v :: Value.toInputValueList vs

/-- Reinterprets each field of an output-value object. -/
def Value.toInputValueFields {C : Type} :
    List (String × Value C) → List (String × InputValue C)
  | [] => []
  | (n, v) :: fs => (n, Value.toInputValue v) :: Value.toInputValueFields fs

end

/-- Modelled from the spec (sections 3 and 4.3, ScalarBinding): the compiled
per-type contract, holding the resolved metadata and the three operation
slots, immutable after schema construction. -/
structure ScalarBinding (α : Type) (C : Type) where
  name : String
  description : Option String
  specifiedByUrl : Option String
  toOutput : α → Value C
  fromInput : InputValue C → Except String α
  parseToken : ScalarToken → Except String C

/-- Parses a decimal integer literal with an optional leading minus sign;
`None` when the text is empty or holds a non-digit. -/
def parseDecInt (s : String) : Option Int :=
  let step : List Char → Option Nat := fun cs =>
    cs.foldl
      (fun acc c =>
        match acc with
        | none => none
        | some n => if c.isDigit then some (n * 10 + (c.toNat - 48)) else none)
      (some 0)
  match s.toList with
  | [] => none
  | '-' :: rest =>
      match rest with
      | [] => none
      | _ => (step rest).map (fun n => -(n : Int))
  | cs => (step cs).map (fun n => (n : Int))

/-- Lower bound of the i32 range, `-2^31`. -/
def i32Min : Int := -2147483648

/-- Exclusive upper bound of the i32 range, `2^31`. -/
def i32Bound : Int := 2147483648

/-- Two's-complement wrap-around into the i32 range, the release-mode
semantics of Rust `i32` addition. -/
def i32wrap (n : Int) : Int := (n + 2147483648) % 4294967296 - 2147483648

/-- Modelled from the spec (section 4.1): the engine's native integer
output-encode - the wrapped primitive becomes an Int-kinded scalar. -/
def int32ToOutput (SV : ScalarValueImpl) (i : Int) : Value SV.carrier :=
  .scalar (SV.fromInt i)

/-- Modelled from the spec (section 4.1): the engine's native integer
input-decode - accepts only an Int-kinded scalar, otherwise fails with a
TypeMismatch error carrying the expected kind and the actual input-value's
textual representation. -/
def int32FromInput (SV : ScalarValueImpl) (v : InputValue SV.carrier) :
    Except String Int :=
  match InputValue.asIntValue SV v with
  | some i => .ok i
  | none => .error ("Expected `Int`, found: " ++ InputValue.display SV v)

/-- Modelled from the spec (sections 4.2 and 6): the engine's native integer
token validator - an integer-wrapped type accepts only Int tokens, whose text
must parse into the i32 range. -/
def int32ParseToken (SV : ScalarValueImpl) (t : ScalarToken) :
    Except String SV.carrier :=
  match t with
  | .intTok text =>
      match parseDecInt text with
      | some i =>
          if i32Min ≤ i ∧ i < i32Bound then .ok (SV.fromInt i)
          else .error ("Invalid `Int` value: " ++ text)
      | none => .error ("Invalid `Int` value: " ++ text)
  | .floatTok text => .error ("Expected `Int`, found: " ++ text)
  | .strTok text => .error ("Expected `Int`, found: \"" ++ text ++ "\"")

/-- Modelled from the spec (section 6): the engine's native string token
validator - a string-wrapped type accepts only String tokens. -/
def stringParseToken (SV : ScalarValueImpl) (t : ScalarToken) :
    Except String SV.carrier :=
  match t with
  | .strTok text => .ok (SV.fromString text)
  | .intTok text => .error ("Expected `String`, found: " ++ text)
  | .floatTok text => .error ("Expected `String`, found: " ++ text)

/-- Modelled from the spec (section 4.2, default derivation): the binding
derived for an i32-wrapping newtype.  `ident` is the type's own identifier
and `nameOverride` the explicit name override, which replaces it entirely;
the explicit description override wins over the documentation comment; the
three operations delegate to the wrapped i32 field, re-wrapping on decode. -/
def deriveInt32Binding {α : Type} (SV : ScalarValueImpl)
    (ident : String) (nameOverride : Option String)
    (docComment : Option String) (descOverride : Option String)
    (url : Option String) (wrap : Int → α) (unwrap : α → Int) :
    ScalarBinding α SV.carrier where
  name := nameOverride.getD ident
  description := match descOverride with
    | some d => some d
    | none => docComment
  specifiedByUrl := url
  toOutput := fun a => int32ToOutput SV (unwrap a)
  fromInput := fun v => (int32FromInput SV v).map wrap
  parseToken := int32ParseToken SV

/-- The `Counter(i32)` newtype of the `trivial_unnamed`, `custom_scalar`,
`generic_scalar` and `bounded_generic_scalar` modules of the source. -/
structure Counter where
  val : Int
deriving DecidableEq, Repr

/-- The `CustomCounter(i32)` newtype of the `explicit_name` module of the
source, registered under the override name `"Counter"`. -/
structure CustomCounter where
  val : Int
deriving DecidableEq, Repr

/-- The `Increment(i32)` newtype of the `custom_to_output` module of the
source. -/
structure Increment where
  val : Int
deriving DecidableEq, Repr

/-- The binding the derive produces for the plain `Counter` type: no name
override, no doc comment, no description override, no URL. -/
def counterBinding (SV : ScalarValueImpl) : ScalarBinding Counter SV.carrier :=
  deriveInt32Binding SV "Counter" none none none none Counter.mk Counter.val

/-- The binding for `CustomCounter` with `#[graphql(name = "Counter")]`. -/
def customCounterBinding (SV : ScalarValueImpl) :
    ScalarBinding CustomCounter SV.carrier :=
  deriveInt32Binding SV "CustomCounter" (some "Counter") none none none
    CustomCounter.mk CustomCounter.val

/-- The binding for the `description_from_doc_comment` module's `Counter`:
a doc comment `"Doc comment."` and no explicit override. -/
def docCommentCounterBinding (SV : ScalarValueImpl) :
    ScalarBinding Counter SV.carrier :=
  deriveInt32Binding SV "Counter" none (some "Doc comment.") none none
    Counter.mk Counter.val

/-- The binding for the `description_from_attribute` module's `Counter`:
doc comment `"Doc comment."`, description override
`"Doc comment from attribute."` and a specified-by URL. -/
def attributeCounterBinding (SV : ScalarValueImpl) :
    ScalarBinding Counter SV.carrier :=
  deriveInt32Binding SV "Counter" none (some "Doc comment.")
    (some "Doc comment from attribute.")
    (some "https://tools.ietf.org/html/rfc4122") Counter.mk Counter.val

/-- The custom output encoder of the `custom_to_output` module of the source:
`let ret = val.0 + 1; ret.to_output()`.  Rust `i32` addition wraps around in
two's complement at the boundary of the range. -/
def Increment.customToOutput (SV : ScalarValueImpl) (val : Increment) :
    Value SV.carrier :=
  int32ToOutput SV (i32wrap (val.val + 1))

/-- The binding for `Increment`: the custom encoder replaces the default
output slot entirely, the decoder and token validator stay derived. -/
def incrementBinding (SV : ScalarValueImpl) :
    ScalarBinding Increment SV.carrier :=
  { deriveInt32Binding SV "Increment" none none none none
      Increment.mk Increment.val with
    toOutput := Increment.customToOutput SV }

/-- Modelled from the spec (sections 2 and 5, data flow): executing a
single-field query `{ field(value: arg) }` against an echo-style resolver for
a scalar binding - the coerced literal is input-decoded, the resolver runs on
the native value, and its result is output-encoded under the field name; a
decode failure turns into a field-level error instead of data. -/
def execScalarEcho {α : Type} (SV : ScalarValueImpl)
    (b : ScalarBinding α SV.carrier) (fieldName : String) (resolver : α → α)
    (arg : InputValue SV.carrier) : Value SV.carrier × List String :=
  match b.fromInput arg with
  | .ok v => (.object [(fieldName, b.toOutput (resolver v))], [])
  | .error e => (.null, [e])

/-- Modelled from the spec (section 3): the GraphQL kind of a registered
type. -/
inductive TypeKind where
  | scalarKind
  | objectKind
deriving DecidableEq, Repr

/-- The introspection string of a type kind. -/
def TypeKind.toGraphQLString : TypeKind → String
  | .scalarKind => "SCALAR"
  | .objectKind => "OBJECT"

/-- Modelled from the spec (sections 4.5 and 6): the read-only metadata
record a registered type exposes to the introspection system. -/
structure TypeMeta where
  kind : TypeKind
  name : String
  description : Option String
  specifiedByUrl : Option String
deriving DecidableEq, Repr

/-- Modelled from the spec (section 3): the schema's type registry, keyed by
registered name. -/
def TypeRegistry : Type := List (String × TypeMeta)

/-- Modelled from the spec (section 6): `__type(name:)`-style lookup,
returning `None` when no type is registered under that name. -/
def lookupType (reg : TypeRegistry) (n : String) : Option TypeMeta :=
  match reg with
  | [] => none
  | (k, m) :: rest => if k = n then some m else lookupType rest n

/-- The metadata record a scalar binding registers: kind is SCALAR and the
name, description and specified-by URL come from the binding. -/
def scalarMeta {α C : Type} (b : ScalarBinding α C) : TypeMeta :=
  ⟨.scalarKind, b.name, b.description, b.specifiedByUrl⟩

/-- Registers a scalar binding into the type registry under its (possibly
overridden) name; the original identifier is not registered. -/
def registerScalar {α C : Type} (b : ScalarBinding α C) : String × TypeMeta :=
  (b.name, scalarMeta b)

/-- The registry entries every schema of the source carries besides its own
scalar: the built-in scalars and the query root object. -/
def builtinEntries : TypeRegistry :=
  [ ("Int", ⟨.scalarKind, "Int", none, none⟩)
  , ("Float", ⟨.scalarKind, "Float", none, none⟩)
  , ("String", ⟨.scalarKind, "String", none, none⟩)
  , ("Boolean", ⟨.scalarKind, "Boolean", none, none⟩)
  , ("QueryRoot", ⟨.objectKind, "QueryRoot", none, none⟩) ]

/-- A metadata selection of the `__type` introspection queries the source
issues. -/
inductive IntroSel where
  | kind
  | descr
  | url
  | typeName
deriving DecidableEq, Repr

/-- The response key of each introspection selection. -/
def IntroSel.fieldName : IntroSel → String
  | .kind => "kind"
  | .descr => "description"
  | .url => "specifiedByUrl"
  | .typeName => "name"

/-- Modelled from the spec (section 4.5): resolving one introspection field
of a type's metadata record - a pure metadata read. -/
def resolveIntroSel (SV : ScalarValueImpl) (m : TypeMeta) :
    IntroSel → Value SV.carrier
  | .kind => .scalar (SV.fromString m.kind.toGraphQLString)
  | .descr =>
      match m.description with
      | some d => .scalar (SV.fromString d)
      | none => .null
  | .url =>
      match m.specifiedByUrl with
      | some u => .scalar (SV.fromString u)
      | none => .null
  | .typeName => .scalar (SV.fromString m.name)

/-- Modelled from the spec (section 6) and the expected outputs of the
source's introspection tests: executing `{ __type(name: tyName) { sels } }`.
A missing name yields null data and no error. -/
def execTypeQuery (SV : ScalarValueImpl) (reg : TypeRegistry) (tyName : String)
    (sels : List IntroSel) : Value SV.carrier × List String :=
  match lookupType reg tyName with
  | none => (.null, [])
  | some m =>
      (.object
        [("__type",
          .object (sels.map (fun s => (s.fieldName, resolveIntroSel SV m s))))],
       [])

/-- Whether a (proleptic Gregorian) year is a leap year. -/
def isLeapYear (y : Nat) : Bool :=
  y % 4 = 0 && (y % 100 ≠ 0 || y % 400 = 0)

/-- Number of days in a month of a given year. -/
def daysInMonth (y m : Nat) : Nat :=
  if m = 2 then (if isLeapYear y then 29 else 28)
  else if m = 4 ∨ m = 6 ∨ m = 9 ∨ m = 11 then 30
  else 31

/-- Days between 1970-01-01 and the given civil date (the standard
days-from-civil computation of the external date-time library). -/
def daysFromCivil (y : Int) (m d : Int) : Int :=
  let yAdj : Int := if m ≤ 2 then y - 1 else y
  let era : Int := yAdj.fdiv 400
  let yoe : Int := yAdj - era * 400
  let mp : Int := (m + 9) % 12
  let doy : Int := (153 * mp + 2) / 5 + d - 1
  let doe : Int := yoe * 365 + yoe / 4 - yoe / 100 + doy
  era * 146097 + doe - 719468

/-- Civil date (year, month, day) of a day count relative to 1970-01-01 (the
standard civil-from-days computation of the external date-time library). -/
def civilFromDays (z0 : Int) : Int × Nat × Nat :=
  let z : Int := z0 + 719468
  let era : Int := z.fdiv 146097
  let doe : Int := z - era * 146097
  let yoe : Int := (doe - doe / 1460 + doe / 36524 - doe / 146096) / 365
  let y : Int := yoe + era * 400
  let doy : Int := doe - (365 * yoe + yoe / 4 - yoe / 100)
  let mp : Int := (5 * doy + 2) / 153
  let d : Int := doy - (153 * mp + 2) / 5 + 1
  let m : Int := if mp < 10 then mp + 3 else mp - 9
  (if m ≤ 2 then y + 1 else y, m.toNat, d.toNat)

/-- A UTC instant: seconds since the epoch plus a sub-second part in
nanoseconds.  Stands for the external library's `DateTime<Utc>`. -/
structure UtcDateTime where
  secs : Int
  nanos : Nat
deriving DecidableEq, Repr

/-- The fields of a well-formed RFC 3339 date-time literal. -/
structure Rfc3339Parts where
  year : Nat
  month : Nat
  day : Nat
  hour : Nat
  minute : Nat
  second : Nat
  nanos : Nat
  offsetMinutes : Int
deriving DecidableEq, Repr

/-- Reads exactly `n` decimal digits off the front of the character list. -/
def readDigits : Nat → List Char → Option (Nat × List Char)
  | 0, cs => some (0, cs)
  | _ + 1, [] => none
  | n + 1, c :: cs =>
      if c.isDigit then
        match readDigits n cs with
        | some (v, rest) => some ((c.toNat - 48) * 10 ^ n + v, rest)
        | none => none
      else none

/-- Splits the leading run of decimal digits off the character list. -/
def takeDigits : List Char → List Char × List Char
  | [] => ([], [])
  | c :: cs =>
      if c.isDigit then
        let (ds, rest) := takeDigits cs
        (c :: ds, rest)
      else ([], c :: cs)

/-- Value of a digit list already padded or truncated to nanosecond
precision. -/
def digitsToNat (ds : List Char) : Nat :=
  ds.foldl (fun acc c => acc * 10 + (c.toNat - 48)) 0

/-- Nanoseconds denoted by the fractional-second digits: the first nine
digits, right-padded with zeros. -/
def fracToNanos (ds : List Char) : Nat :=
  digitsToNat ((ds.take 9) ++ List.replicate (9 - ds.length) '0')

/-- Parses the timezone offset suffix of an RFC 3339 literal: `Z`/`z`, or a
sign with a two-digit hour, a colon and a two-digit minute, consuming the
whole remaining input. -/
def parseOffset (cs : List Char) : Option Int :=
  match cs with
  | ['Z'] => some 0
  | ['z'] => some 0
  | sign :: rest =>
      if sign = '+' ∨ sign = '-' then
        match readDigits 2 rest with
        | some (oh, ':' :: rest2) =>
            match readDigits 2 rest2 with
            | some (om, []) =>
                if oh ≤ 23 ∧ om ≤ 59 then
                  let total : Int := (oh : Int) * 60 + (om : Int)
                  some (if sign = '-' then -total else total)
                else none
            | _ => none
        | _ => none
      else none
  | [] => none

/-- Modelled external dependency: the RFC 3339 date-time parser of the
date-time library (`parse_from_rfc3339`): `YYYY-MM-DDTHH:MM:SS`, an optional
fraction, then an offset; the `T` separator and the `Z` designator may be
lowercase.  Calendar validity (month, day-in-month, hour, minute, second and
offset ranges) is enforced; leap-second literals are not modelled. -/
def parseRfc3339 (s : String) : Option Rfc3339Parts :=
  match readDigits 4 s.toList with
  | some (y, '-' :: r1) =>
      (match readDigits 2 r1 with
      | some (mo, '-' :: r2) =>
          (match readDigits 2 r2 with
          | some (d, sep :: r3) =>
              if sep = 'T' ∨ sep = 't' then
                match readDigits 2 r3 with
                | some (h, ':' :: r4) =>
                    (match readDigits 2 r4 with
                    | some (mi, ':' :: r5) =>
                        (match readDigits 2 r5 with
                        | some (sec, r6) =>
                            let (nanos?, r7) :=
                              match r6 with
                              | '.' :: rest =>
                                  let (ds, r) := takeDigits rest
                                  (if ds = [] then none
                                   else some (fracToNanos ds), r)
                              | _ => (some 0, r6)
                            (match nanos? with
                            | none => none
                            | some nanos =>
                                match parseOffset r7 with
                                | some off =>
                                    if 1 ≤ mo ∧ mo ≤ 12 ∧ 1 ≤ d ∧
                                        d ≤ daysInMonth y mo ∧ h ≤ 23 ∧
                                        mi ≤ 59 ∧ sec ≤ 59 then
                                      some ⟨y, mo, d, h, mi, sec, nanos, off⟩
                                    else none
                                | none => none)
                        | _ => none)
                    | _ => none)
                | _ => none
              else none
          | _ => none)
      | _ => none)
  | _ => none

/-- Modelled external dependency: converting a parsed fixed-offset date-time
to the UTC timeline (`with_timezone(&Utc)` keeps the instant). -/
def Rfc3339Parts.toUtc (p : Rfc3339Parts) : UtcDateTime :=
  ⟨daysFromCivil (p.year : Int) (p.month : Int) (p.day : Int) * 86400 +
      (p.hour : Int) * 3600 + (p.minute : Int) * 60 + (p.second : Int) -
      p.offsetMinutes * 60,
   p.nanos⟩

/-- Left-pads the decimal form of a number with zeros to the given width. -/
def padNum (width n : Nat) : String :=
  let s := toString n
  String.mk (List.replicate (width - s.length) '0') ++ s

/-- Modelled external dependency: the fractional-second part the RFC 3339
formatter emits - nothing for zero nanoseconds, otherwise three, six or nine
digits, whichever shortest form is exact. -/
def fracSuffix (nanos : Nat) : String :=
  if nanos = 0 then ""
  else if nanos % 1000000 = 0 then "." ++ padNum 3 (nanos / 1000000)
  else if nanos % 1000 = 0 then "." ++ padNum 6 (nanos / 1000)
  else "." ++ padNum 9 nanos

/-- Modelled external dependency: `to_rfc3339` on a UTC date-time - the civil
date and time of day followed by the `+00:00` offset. -/
def UtcDateTime.toRfc3339 (dt : UtcDateTime) : String :=
  let days : Int := dt.secs.fdiv 86400
  let sod : Int := dt.secs - days * 86400
  let (y, mo, d) := civilFromDays days
  let h : Int := sod / 3600
  let mi : Int := sod / 60 % 60
  let s : Int := sod % 60
  padNum 4 y.toNat ++ "-" ++ padNum 2 mo ++ "-" ++ padNum 2 d ++ "T" ++
    padNum 2 h.toNat ++ ":" ++ padNum 2 mi.toNat ++ ":" ++ padNum 2 s.toNat ++
    fracSuffix dt.nanos ++ "+00:00"

/-- The `CustomDateTime` type of the `generic_with_all_resolvers` module of
the source, at the `Tz = Utc` instantiation the tests use; the source's
unused second field is kept. -/
structure CustomDateTime where
  dt : UtcDateTime
  unused : Unit
deriving DecidableEq, Repr

/-- The custom output encoder of `CustomDateTime` from the source:
`Value::scalar(self.dt.to_rfc3339())`. -/
def CustomDateTime.toOutput (SV : ScalarValueImpl) (v : CustomDateTime) :
    Value SV.carrier :=
  .scalar (SV.fromString v.dt.toRfc3339)

/-- The custom input decoder of `CustomDateTime` from the source: take the
input's string payload or fail with the type-mismatch message, then parse it
as RFC 3339 and move it onto the UTC timeline, or fail with the parse
message.  The parse error's library-supplied detail text is modelled as a
fixed description. -/
def CustomDateTime.fromInput (SV : ScalarValueImpl)
    (v : InputValue SV.carrier) : Except String CustomDateTime :=
  match InputValue.asStringValue SV v with
  | none => .error ("Expected `String`, found: " ++ InputValue.display SV v)
  | some s =>
      match parseRfc3339 s with
      | some p => .ok ⟨p.toUtc, ()⟩
      | none =>
          .error "Failed to parse CustomDateTime: input is not a valid RFC 3339 date-time"

/-- The custom token validator of `CustomDateTime` from the source:
delegates to the native string validator. -/
def CustomDateTime.parseToken (SV : ScalarValueImpl) (t : ScalarToken) :
    Except String SV.carrier :=
  stringParseToken SV t

/-- The binding for `CustomDateTime`: all three operations explicit, plus
the declared specified-by URL. -/
def customDateTimeBinding (SV : ScalarValueImpl) :
    ScalarBinding CustomDateTime SV.carrier where
  name := "CustomDateTime"
  description := none
  specifiedByUrl := some "https://tools.ietf.org/html/rfc3339"
  toOutput := CustomDateTime.toOutput SV
  fromInput := CustomDateTime.fromInput SV
  parseToken := CustomDateTime.parseToken SV

/-- The registry of the `trivial_unnamed` module's schema. -/
def trivialRegistry : TypeRegistry :=
  registerScalar (counterBinding defaultScalar) :: builtinEntries

/-- The registry of the `explicit_name` module's schema: `CustomCounter` is
registered only under its override name `"Counter"`. -/
def explicitNameRegistry : TypeRegistry :=
  registerScalar (customCounterBinding defaultScalar) :: builtinEntries

/-- The registry of the `custom_to_output` module's schema. -/
def incrementRegistry : TypeRegistry :=
  registerScalar (incrementBinding defaultScalar) :: builtinEntries

/-- The registry of the `generic_with_all_resolvers` module's schema. -/
def dateTimeRegistry : TypeRegistry :=
  registerScalar (customDateTimeBinding defaultScalar) :: builtinEntries

/-- The registry of the `description_from_doc_comment` module's schema. -/
def docCommentRegistry : TypeRegistry :=
  registerScalar (docCommentCounterBinding defaultScalar) :: builtinEntries

/-- The registry of the `description_from_attribute` module's schema. -/
def attributeRegistry : TypeRegistry :=
  registerScalar (attributeCounterBinding defaultScalar) :: builtinEntries

/-- C1 (counterexample): the round-trip law stated for every binding fails on
the `Increment` binding of the `custom_to_output` module at the concrete
value `Increment(0)`: its encoder produces the Int scalar `1`, a shape the
paired decoder accepts, yet decoding returns `Increment(1)`, not the original
value. -/
theorem increment_roundtrip_fails :
    (incrementBinding defaultScalar).fromInput
        (Value.toInputValue ((incrementBinding defaultScalar).toOutput ⟨0⟩)) =
      .ok ⟨1⟩ ∧
    (incrementBinding defaultScalar).fromInput
        (Value.toInputValue ((incrementBinding defaultScalar).toOutput ⟨0⟩)) ≠
      .ok ⟨0⟩ ∧
    Increment.mk 1 ≠ Increment.mk 0 := by
  refine ⟨rfl, ?_, by decide⟩
  intro h
  rw [show (incrementBinding defaultScalar).fromInput
      (Value.toInputValue ((incrementBinding defaultScalar).toOutput ⟨0⟩)) =
      .ok ⟨1⟩ from rfl] at h
  simp at h

/-- C1 (amended): for every default-derived i32-wrapping binding - one whose
encoder and decoder both delegate to the wrapped field, with re-wrapping
undoing unwrapping - decoding the encoded form of any native value returns
the original value, over every scalar-value implementation; in particular the
default-derived `Counter(i32)` echo field returns exactly the integer
supplied: `{ counter(value: 0) }` yields `{"counter": 0}`. -/
theorem derived_binding_roundtrip {α : Type} (SV : ScalarValueImpl)
    (ident : String) (nameO docC descO url : Option String)
    (wrap : Int → α) (unwrap : α → Int) (hwu : ∀ a, wrap (unwrap a) = a)
    (a : α) :
    (deriveInt32Binding SV ident nameO docC descO url wrap unwrap).fromInput
        (Value.toInputValue
          ((deriveInt32Binding SV ident nameO docC descO url wrap unwrap).toOutput a)) =
      .ok a ∧
    execScalarEcho defaultScalar (counterBinding defaultScalar) "counter" id
        (.scalar (.int 0)) =
      (.object [("counter", .scalar (.int 0))], []) := by
  refine ⟨?_, rfl⟩
  simp [deriveInt32Binding, int32ToOutput, Value.toInputValue, int32FromInput,
    InputValue.asIntValue, SV.asInt_fromInt, Except.map, hwu]

/-- C1 (witness for the amended theorem). -/
theorem derived_binding_roundtrip_witness :
    (deriveInt32Binding defaultScalar "Counter" none none none none
        Counter.mk Counter.val).fromInput
      (Value.toInputValue
        ((deriveInt32Binding defaultScalar "Counter" none none none none
            Counter.mk Counter.val).toOutput ⟨0⟩)) = .ok ⟨0⟩ ∧
    execScalarEcho defaultScalar (counterBinding defaultScalar) "counter" id
        (.scalar (.int 0)) =
      (.object [("counter", .scalar (.int 0))], []) :=
  derived_binding_roundtrip defaultScalar "Counter" none none none none
    Counter.mk Counter.val (fun _ => rfl) ⟨0⟩

/-- C2: for every registered scalar binding - whatever its name override,
description, specified-by URL or custom operations - the introspected `kind`
field is exactly the string "SCALAR", over every scalar-value
implementation. -/
theorem scalar_kind_always_SCALAR {α : Type} (SV : ScalarValueImpl)
    (b : ScalarBinding α SV.carrier) (rest : TypeRegistry) :
    execTypeQuery SV (registerScalar b :: rest) b.name [.kind] =
      (.object [("__type",
        .object [("kind", .scalar (SV.fromString "SCALAR"))])], []) := by
  simp [execTypeQuery, lookupType, registerScalar, scalarMeta, resolveIntroSel,
    TypeKind.toGraphQLString, IntroSel.fieldName]

/-- C3: in the `explicit_name` schema, where `CustomCounter` carries the name
override "Counter", introspecting the original identifier yields null data
and no error, while the override name resolves to the scalar binding. -/
theorem name_override_hides_original :
    execTypeQuery defaultScalar explicitNameRegistry "CustomCounter" [.kind] =
      (.null, []) ∧
    execTypeQuery defaultScalar explicitNameRegistry "Counter" [.kind] =
      (.object [("__type",
        .object [("kind", .scalar (.str "SCALAR"))])], []) ∧
    lookupType explicitNameRegistry "CustomCounter" = none :=
  ⟨rfl, rfl, rfl⟩

/-- C4 (counterexample): at the topmost i32 input `v = 2147483647` the
`Increment` encoder's addition wraps around, so the echo field reports
`-2147483648`, not `v + 1`. -/
theorem increment_wraps_at_i32_max :
    execScalarEcho defaultScalar (incrementBinding defaultScalar) "increment"
        id (.scalar (.int 2147483647)) =
      (.object [("increment", .scalar (.int (-2147483648)))], []) ∧
    (-2147483648 : Int) ≠ 2147483647 + 1 :=
  ⟨rfl, by decide⟩

/-- C4 (amended): for every i32 input `v` whose successor still lies in the
i32 range, the `Increment` echo field reports `v + 1` on output while the
original integer shape `v` is still accepted on input; at `v = 2147483647`
the addition wraps instead.  In particular `{ increment(value: 0) }` yields
`{"increment": 1}`. -/
theorem increment_reports_plus_one (v : Int) (h1 : i32Min ≤ v)
    (h2 : v + 1 < i32Bound) :
    execScalarEcho defaultScalar (incrementBinding defaultScalar) "increment"
        id (.scalar (.int v)) =
      (.object [("increment", .scalar (.int (v + 1)))], []) ∧
    (incrementBinding defaultScalar).fromInput (.scalar (.int v)) = .ok ⟨v⟩ ∧
    execScalarEcho defaultScalar (incrementBinding defaultScalar) "increment"
        id (.scalar (.int 0)) =
      (.object [("increment", .scalar (.int 1))], []) := by
  have hw : i32wrap (v + 1) = v + 1 := by
    unfold i32wrap
    unfold i32Min at h1
    unfold i32Bound at h2
    omega
  refine ⟨?_, ?_, rfl⟩
  · simp [execScalarEcho, incrementBinding, deriveInt32Binding, int32FromInput,
      InputValue.asIntValue, defaultScalar, Except.map,
      Increment.customToOutput, int32ToOutput, hw]
  · simp [incrementBinding, deriveInt32Binding, int32FromInput,
      InputValue.asIntValue, defaultScalar, Except.map]

/-- C4 (witness for the amended theorem). -/
theorem increment_reports_plus_one_witness :
    execScalarEcho defaultScalar (incrementBinding defaultScalar) "increment"
        id (.scalar (.int 0)) =
      (.object [("increment", .scalar (.int (0 + 1)))], []) ∧
    (incrementBinding defaultScalar).fromInput (.scalar (.int 0)) = .ok ⟨0⟩ ∧
    execScalarEcho defaultScalar (incrementBinding defaultScalar) "increment"
        id (.scalar (.int 0)) =
      (.object [("increment", .scalar (.int 1))], []) :=
  increment_reports_plus_one 0 (by decide) (by decide)

/-- C5: the `CustomDateTime` binding parses the RFC 3339 literal
`"1996-12-19T16:39:57-08:00"`, converts it to UTC, and the echo field
re-encodes it normalized as `"1996-12-20T00:39:57+00:00"`. -/
theorem custom_date_time_normalizes :
    execScalarEcho defaultScalar (customDateTimeBinding defaultScalar)
        "dateTime" id (.scalar (.str "1996-12-19T16:39:57-08:00")) =
      (.object [("dateTime",
        .scalar (.str "1996-12-20T00:39:57+00:00"))], []) ∧
    (parseRfc3339 "1996-12-19T16:39:57-08:00").map
        (fun p => p.toUtc.toRfc3339) =
      some "1996-12-20T00:39:57+00:00" :=
  ⟨rfl, rfl⟩

/-- C6: `CustomDateTime.from_input` succeeds exactly on string-shaped inputs
whose payload parses as an RFC 3339 date-time, and every rejection is an
`Err` carrying one of the two descriptive messages - it never succeeds on a
non-string input or an unparseable string. -/
theorem custom_date_time_fromInput_spec (SV : ScalarValueImpl)
    (v : InputValue SV.carrier) :
    ((CustomDateTime.fromInput SV v).isOk = true ↔
      ∃ s, InputValue.asStringValue SV v = some s ∧
        (parseRfc3339 s).isSome = true) ∧
    ((CustomDateTime.fromInput SV v).isOk = false →
      (∃ t, CustomDateTime.fromInput SV v =
          .error ("Expected `String`, found: " ++ t)) ∨
      CustomDateTime.fromInput SV v =
        .error "Failed to parse CustomDateTime: input is not a valid RFC 3339 date-time") := by
  cases hv : InputValue.asStringValue SV v with
  | none =>
      have he : CustomDateTime.fromInput SV v =
          .error ("Expected `String`, found: " ++ InputValue.display SV v) := by
        unfold CustomDateTime.fromInput
        rw [hv]
      rw [he]
      refine ⟨?_, fun _ => .inl ⟨InputValue.display SV v, rfl⟩⟩
      simp [Except.isOk, Except.toBool, hv]
  | some s =>
      cases hp : parseRfc3339 s with
      | none =>
          have he : CustomDateTime.fromInput SV v =
              .error "Failed to parse CustomDateTime: input is not a valid RFC 3339 date-time" := by
            unfold CustomDateTime.fromInput
            rw [hv]
            simp only [hp]
          rw [he]
          refine ⟨?_, fun _ => .inr rfl⟩
          simp [Except.isOk, Except.toBool, hv, hp]
      | some p =>
          have he : CustomDateTime.fromInput SV v = .ok ⟨p.toUtc, ()⟩ := by
            unfold CustomDateTime.fromInput
            rw [hv]
            simp only [hp]
          rw [he]
          refine ⟨?_, ?_⟩
          · simp only [Except.isOk, Except.toBool, true_iff]
            exact ⟨s, rfl, by rw [hp]; rfl⟩
          · intro h
            simp [Except.isOk, Except.toBool] at h

/-- C6 (witness): the non-string input `null` is rejected with the
type-mismatch message, and a parseable RFC 3339 string is accepted. -/
theorem custom_date_time_fromInput_spec_witness :
    ((CustomDateTime.fromInput defaultScalar .null).isOk = false →
      (∃ t, CustomDateTime.fromInput defaultScalar .null =
          .error ("Expected `String`, found: " ++ t)) ∨
      CustomDateTime.fromInput defaultScalar .null =
        .error "Failed to parse CustomDateTime: input is not a valid RFC 3339 date-time") ∧
    ((CustomDateTime.fromInput defaultScalar
        (.scalar (.str "1996-12-19T16:39:57-08:00"))).isOk = true ↔
      ∃ s, InputValue.asStringValue defaultScalar
          (.scalar (.str "1996-12-19T16:39:57-08:00")) = some s ∧
        (parseRfc3339 s).isSome = true) :=
  ⟨(custom_date_time_fromInput_spec defaultScalar .null).2,
   (custom_date_time_fromInput_spec defaultScalar
      (.scalar (.str "1996-12-19T16:39:57-08:00"))).1⟩

/-- C7: a binding derived with no documentation comment and no description
override carries no description - over every scalar-value implementation and
wrapper - and the `trivial_unnamed` schema's introspected `description` field
is null. -/
theorem no_doc_no_description :
    (∀ (α : Type) (SV : ScalarValueImpl) (ident : String)
        (nameO url : Option String) (wrap : Int → α) (unwrap : α → Int),
      (deriveInt32Binding SV ident nameO none none url wrap unwrap).description
        = none) ∧
    execTypeQuery defaultScalar trivialRegistry "Counter" [.descr] =
      (.object [("__type", .object [("description", .null)])], []) :=
  ⟨fun _ _ _ _ _ _ _ => rfl, rfl⟩

/-- C8: with only a doc comment the introspected `description` equals the
comment text "Doc comment.", and with an explicit description override also
present the override text "Doc comment from attribute." is reported instead;
in general the override, when present, replaces the doc comment in the
derived binding. -/
theorem description_override_wins :
    execTypeQuery defaultScalar docCommentRegistry "Counter" [.descr] =
      (.object [("__type",
        .object [("description", .scalar (.str "Doc comment."))])], []) ∧
    execTypeQuery defaultScalar attributeRegistry "Counter" [.descr] =
      (.object [("__type",
        .object [("description",
          .scalar (.str "Doc comment from attribute."))])], []) ∧
    (∀ (α : Type) (SV : ScalarValueImpl) (ident d : String)
        (nameO docC url : Option String) (wrap : Int → α) (unwrap : α → Int),
      (deriveInt32Binding SV ident nameO docC (some d) url wrap
          unwrap).description = some d) :=
  ⟨rfl, rfl, fun _ _ _ _ _ _ _ _ _ => rfl⟩

/-- C9: the `CustomDateTime` binding reports exactly its declared
specified-by URL through introspection, a binding without one reports null,
and in general introspection reports a registered binding's URL verbatim. -/
theorem specified_by_url_reported (SV : ScalarValueImpl) (α : Type)
    (b : ScalarBinding α SV.carrier) (u : String)
    (hu : b.specifiedByUrl = some u) :
    resolveIntroSel SV (scalarMeta b) .url = .scalar (SV.fromString u) ∧
    execTypeQuery defaultScalar dateTimeRegistry "CustomDateTime" [.url] =
      (.object [("__type",
        .object [("specifiedByUrl",
          .scalar (.str "https://tools.ietf.org/html/rfc3339"))])], []) ∧
    execTypeQuery defaultScalar trivialRegistry "Counter" [.url] =
      (.object [("__type", .object [("specifiedByUrl", .null)])], []) := by
  refine ⟨?_, rfl, rfl⟩
  simp [resolveIntroSel, scalarMeta, hu]

/-- C9 (witness): instantiated at the `CustomDateTime` binding and its
declared URL. -/
theorem specified_by_url_reported_witness :
    resolveIntroSel defaultScalar
        (scalarMeta (customDateTimeBinding defaultScalar)) .url =
      .scalar (defaultScalar.fromString "https://tools.ietf.org/html/rfc3339") ∧
    execTypeQuery defaultScalar dateTimeRegistry "CustomDateTime" [.url] =
      (.object [("__type",
        .object [("specifiedByUrl",
          .scalar (.str "https://tools.ietf.org/html/rfc3339"))])], []) ∧
    execTypeQuery defaultScalar trivialRegistry "Counter" [.url] =
      (.object [("__type", .object [("specifiedByUrl", .null)])], []) :=
  specified_by_url_reported defaultScalar CustomDateTime
    (customDateTimeBinding defaultScalar)
    "https://tools.ietf.org/html/rfc3339" rfl

/-- C10: instantiating the default-derived `Counter` binding over any
scalar-value implementation - including the `MyScalarValue` union, with or
without extra capability bounds - yields the same observable behaviour as
over `DefaultScalarValue`: the echo query returns the supplied integer, the
introspected kind is "SCALAR" and the description is null. -/
theorem counter_scalar_value_agnostic (SV : ScalarValueImpl) :
    execScalarEcho SV (counterBinding SV) "counter" id
        (.scalar (SV.fromInt 0)) =
      (.object [("counter", .scalar (SV.fromInt 0))], []) ∧
    execTypeQuery SV (registerScalar (counterBinding SV) :: builtinEntries)
        "Counter" [.kind] =
      (.object [("__type",
        .object [("kind", .scalar (SV.fromString "SCALAR"))])], []) ∧
    execTypeQuery SV (registerScalar (counterBinding SV) :: builtinEntries)
        "Counter" [.descr] =
      (.object [("__type", .object [("description", .null)])], []) ∧
    execScalarEcho myScalar (counterBinding myScalar) "counter" id
        (.scalar (.int 0)) =
      (.object [("counter", .scalar (.int 0))], []) := by
  refine ⟨?_, ?_, ?_, rfl⟩
  · simp [execScalarEcho, counterBinding, deriveInt32Binding, int32FromInput,
      InputValue.asIntValue, SV.asInt_fromInt, Except.map, int32ToOutput]
  · simp [execTypeQuery, lookupType, registerScalar, counterBinding,
      deriveInt32Binding, scalarMeta, resolveIntroSel,
      TypeKind.toGraphQLString, IntroSel.fieldName]
  · simp [execTypeQuery, lookupType, registerScalar, counterBinding,
      deriveInt32Binding, scalarMeta, resolveIntroSel, IntroSel.fieldName]
